import Mathlib

/-!
Shallow embedding of `src/api.py` (phishing-email prediction service).

The service holds two process-wide globals (`model`, `vectorizer`), loaded
once at startup by `load_model_and_vectorizer`, and serves `/predict` and
`/health`.  The feature extractor and the classifier are opaque
collaborators; we model them as functions that may fail (a Python
exception becomes an `Except.error` carrying the exception's message).
Probabilities are modelled as exact rationals; Python strings as Lean
strings, with `strip`, `len` and `int()` re-implemented structurally so
that concrete runs reduce in the kernel.
-/

namespace PhishingAPI

/-! ### Python values and their truthiness -/

/-- A JSON-decoded Python value, as `request.get_json()` can produce. -/
inductive PyVal where
  | pstr (s : String)
  | pint (n : Int)
  | pbool (b : Bool)
  | pnone
  | plist (xs : List PyVal)
  | pdict (kvs : List (String × PyVal))

/-- Python truthiness (`if not x`): empty strings, zero, `False`, `None`
and empty containers are falsy. -/
def truthy : PyVal → Bool
  | .pstr s => s != ""
  | .pint n => n != 0
  | .pbool b => b
  | .pnone => false
  | .plist xs => !xs.isEmpty
  | .pdict kvs => !kvs.isEmpty

/-- `isinstance(x, str)`. -/
def isStr : PyVal → Bool
  | .pstr _ => true
  | _ => false

/-- `dict.get(key, default)` on a decoded JSON object. -/
def dictGet (kvs : List (String × PyVal)) (key : String) (dflt : PyVal) : PyVal :=
  match kvs.find? (fun kv => kv.1 == key) with
  | some kv => kv.2
  | none => dflt

/-- `data.get(key, default)` on an arbitrary decoded value: raises
`AttributeError` (an `Except.error`) when `data` is not a dict, as in
Python. -/
def pyGetAttr (v : PyVal) (key : String) (dflt : PyVal) : Except String PyVal :=
  match v with
  | .pdict kvs => .ok (dictGet kvs key dflt)
  | _ => .error "object has no attribute get"

/-! ### Python string primitives (`strip`, `len`, `int`) -/

/-- The whitespace characters `str.strip()` removes. -/
def isSpaceChar (c : Char) : Bool :=
  c == ' ' || c == '\t' || c == '\n' || c == '\r' || c == '\x0b' || c == '\x0c'

/-- Drop leading whitespace from a character list. -/
def dropSpaces : List Char → List Char
  | [] => []
  | c :: cs => if isSpaceChar c then dropSpaces cs else c :: cs

/-- `str.strip()` on a character list: drop whitespace from both ends. -/
def stripList (cs : List Char) : List Char :=
  (dropSpaces (dropSpaces cs.reverse).reverse)

/-- Python `s.strip()`. -/
def pyStrip (s : String) : String := ⟨stripList s.data⟩

/-- Python `len(s)`: the number of characters. -/
def pyLen (s : String) : Nat := s.data.length

/-- The numeric value of a decimal digit character. -/
def digitVal (c : Char) : Option Nat :=
  if '0' ≤ c ∧ c ≤ '9' then some (c.toNat - '0'.toNat) else none

/-- Read a nonempty all-digit character list as a number. -/
def digitsVal : List Char → Nat → Option Nat
  | [], acc => some acc
  | c :: cs, acc =>
    match digitVal c with
    | some d => digitsVal cs (acc * 10 + d)
    | none => none

/-- Python `int(s)` on a string: strips whitespace, accepts an optional
sign followed by digits, raises `ValueError` otherwise. -/
def pyIntOfString (s : String) : Except String Int :=
  match stripList s.data with
  | '-' :: c :: cs =>
    match digitsVal (c :: cs) 0 with
    | some n => .ok (-(n : Int))
    | none => .error ("invalid literal for int() with base 10: " ++ s)
  | '+' :: c :: cs =>
    match digitsVal (c :: cs) 0 with
    | some n => .ok (n : Int)
    | none => .error ("invalid literal for int() with base 10: " ++ s)
  | c :: cs =>
    match digitsVal (c :: cs) 0 with
    | some n => .ok (n : Int)
    | none => .error ("invalid literal for int() with base 10: " ++ s)
  | [] => .error ("invalid literal for int() with base 10: " ++ s)

/-! ### The classifier bundle -/

/-- What `model.predict(...)[0]` can yield: scikit-learn models return the
label in the dtype of the training targets, a number or a string. -/
inductive PyLabel where
  | num (n : Int)
  | strl (s : String)

/-- Python `int(x)` on a predicted label: numbers coerce directly, strings
go through `int(str)`. -/
def pyInt : PyLabel → Except String Int
  | .num n => .ok n
  | .strl s => pyIntOfString s

/-- The TF-IDF vectorizer artifact: an opaque `transform` from text to a
feature vector, which may raise. -/
structure Vectorizer (Feat : Type) where
  transform : String → Except String Feat

/-- The classifier artifact: opaque `predict` and `predict_proba`, each of
which may raise.  `predict_proba` yields the (safe, phishing) pair. -/
structure Model (Feat : Type) where
  predict : Feat → Except String PyLabel
  predict_proba : Feat → Except String (ℚ × ℚ)

/-- The two module-level globals of `api.py`, each `None` until loaded. -/
structure Globals (Feat : Type) where
  model : Option (Model Feat)
  vectorizer : Option (Vectorizer Feat)

/-- A Python exception as seen by `load_model_and_vectorizer`: the code
catches `FileNotFoundError` only, everything else propagates. -/
inductive Exc where
  | fileNotFound (msg : String)
  | other (msg : String)

/-- `load_model_and_vectorizer`: runs `joblib.load` for the model, assigns
the global, then runs it for the vectorizer and assigns that global; a
`FileNotFoundError` at either point is caught and turns into `return
False`, any other exception propagates (`Except.error`).  Assignments made
before the failure survive it. -/
def load_model_and_vectorizer {Feat : Type} (g : Globals Feat)
    (loadModelResult : Except Exc (Model Feat))
    (loadVectorizerResult : Except Exc (Vectorizer Feat)) :
    Globals Feat × Except Exc Bool :=
  match loadModelResult with
  | .error (.fileNotFound _) => (g, .ok false)
  | .error (.other msg) => (g, .error (.other msg))
  | .ok m =>
    match loadVectorizerResult with
    | .error (.fileNotFound _) => ({ g with model := some m }, .ok false)
    | .error (.other msg) => ({ g with model := some m }, .error (.other msg))
    | .ok v => ({ model := some m, vectorizer := some v }, .ok true)

/-- What the `__main__` block does after loading: `app.run` only when the
loader returned `True`; on `False` it prints a message and falls off the
end of the script; an uncaught exception aborts the process. -/
inductive MainOutcome where
  | serves
  | exitsWithoutServing
  | crashed (e : Exc)

/-- The `__main__` block: globals start unset, `load_model_and_vectorizer`
runs, and the server starts only when it returned `True`. -/
def mainBlock {Feat : Type} (loadModelResult : Except Exc (Model Feat))
    (loadVectorizerResult : Except Exc (Vectorizer Feat)) :
    Globals Feat × MainOutcome :=
  let init : Globals Feat := { model := none, vectorizer := none }
  match load_model_and_vectorizer init loadModelResult loadVectorizerResult with
  | (g, .ok true) => (g, .serves)
  | (g, .ok false) => (g, .exitsWithoutServing)
  | (g, .error e) => (g, .crashed e)

/-! ### `predict_phishing` -/

/-- The `confidence_scores` dict built from `predict_proba`. -/
structure Confidence where
  safe : ℚ
  phishing : ℚ
deriving DecidableEq

/-- `predict_phishing(email_text)`: returns the Python triple
`(prediction, confidence, error)` — on success `(int(prediction),
confidence_scores, None)`, on any caught exception `(None, None, str(e))`,
and `(None, None, "Model not loaded")` when a global is unset. -/
def predict_phishing {Feat : Type} (g : Globals Feat) (email_text : String) :
    Option Int × Option Confidence × Option String :=
  match g.model, g.vectorizer with
  | some model, some vectorizer =>
    match vectorizer.transform email_text with
    | .error e => (none, none, some e)
    | .ok email_tfidf =>
      match model.predict email_tfidf with
      | .error e => (none, none, some e)
      | .ok prediction =>
        match model.predict_proba email_tfidf with
        | .error e => (none, none, some e)
        | .ok probability =>
          match pyInt prediction with
          | .error e => (none, none, some e)
          | .ok n => (some n, some { safe := probability.1, phishing := probability.2 }, none)
  | _, _ => (none, none, some "Model not loaded")

/-! ### The `/predict` handler -/

/-- The body of a successful `/predict` response. -/
structure SuccessBody where
  success : Bool
  prediction : Int
  label : String
  confidence : Confidence
  risk_level : String
  email_length : Nat
  processed : Bool
deriving DecidableEq

/-- A `/predict` response: a 200 success body, or `{error: msg}` with an
HTTP status. -/
inductive Resp where
  | ok (body : SuccessBody)
  | err (status : Nat) (error : String)
deriving DecidableEq

def modelNotLoadedMsg : String := "Model not loaded. Please check server logs."

def noDataMsg : String := "No JSON data provided. Please send email text in JSON format."

def missingFieldMsg : String := "No 'email_text' field found in request. Please provide email content."

def notStringMsg : String := "'email_text' must be a string"

def emptyTextMsg : String := "Email text cannot be empty"

/-- The body of the `try:` block of the `/predict` handler; an
`Except.error` is an exception reaching the handler's catch-all. -/
def predictBody {Feat : Type} (g : Globals Feat) (body : Option PyVal) :
    Except String Resp :=
  if g.model.isNone || g.vectorizer.isNone then
    .ok (.err 500 modelNotLoadedMsg)
  else
    match body with
    | none => .ok (.err 400 noDataMsg)
    | some data =>
      if !truthy data then .ok (.err 400 noDataMsg)
      else
        match pyGetAttr data "email_text" (.pstr "") with
        | .error e => .error e
        | .ok email_text =>
          if !truthy email_text then .ok (.err 400 missingFieldMsg)
          else
            match email_text with
            | .pstr s =>
              if pyLen (pyStrip s) == 0 then .ok (.err 400 emptyTextMsg)
              else
                match predict_phishing g s with
                | (_, _, some error) => .ok (.err 500 ("Prediction failed: " ++ error))
                | (some prediction, some confidence, none) =>
                  .ok (.ok
                    { success := true,
                      prediction := prediction,
                      label := if prediction == 1 then "phishing email" else "safe email",
                      confidence := confidence,
                      risk_level :=
                        if confidence.phishing > 0.7 then "HIGH"
                        else if confidence.phishing > 0.4 then "MEDIUM"
                        else "LOW",
                      email_length := pyLen s,
                      processed := true })
                | (_, none, none) => .error "NoneType object is not subscriptable"
                | (none, some _, none) => .error "NoneType object is not subscriptable"
            | _ => .ok (.err 400 notStringMsg)

/-- The `/predict` handler: the `try:` body with its catch-all `except`,
which converts any exception into `{error: "Server error: ..."}`, 500. -/
def predict {Feat : Type} (g : Globals Feat) (body : Option PyVal) : Resp :=
  match predictBody g body with
  | .ok r => r
  | .error e => .err 500 ("Server error: " ++ e)

/-! ### The `/health` handler -/

/-- The `/health` response body. -/
structure HealthBody where
  status : String
  model_loaded : Bool
  vectorizer_loaded : Bool
  classifier_loaded : Bool
deriving DecidableEq

/-- The `/health` handler: `model_loaded` is the conjunction, `status`
derives from it, and the two per-artifact flags report each global. -/
def health {Feat : Type} (g : Globals Feat) : HealthBody :=
  let model_loaded := g.model.isSome && g.vectorizer.isSome
  { status := if model_loaded then "healthy" else "unhealthy",
    model_loaded := model_loaded,
    vectorizer_loaded := g.vectorizer.isSome,
    classifier_loaded := g.model.isSome }

/-! ### Spec-side definition for the normalization step (claim C4) -/

/-- ASCII lower-casing of one character. -/
def lowerChar (c : Char) : Char :=
  if 'A' ≤ c ∧ c ≤ 'Z' then Char.ofNat (c.toNat + 32) else c

/-- Does `needle` begin `haystack`? -/
def beginsWith : List Char → List Char → Bool
  | [], _ => true
  | _ :: _, [] => false
  | a :: as, b :: bs => a == b && beginsWith as bs

/-- Does `needle` occur inside `haystack`? -/
def containsSeq (needle : List Char) : List Char → Bool
  | [] => beginsWith needle []
  | b :: bs => beginsWith needle (b :: bs) || containsSeq needle bs

/-- Modelled from the spec: the spec's normalization rule for string
labels — a label containing the substring "phish" case-insensitively maps
to 1, anything else to 0.  No such mapping exists in `src/api.py`; this
definition exists only to compare the spec's rule with the code. -/
def phishSubstring (s : String) : Bool :=
  containsSeq "phish".data (s.data.map lowerChar)

/-! ### Concrete fixtures for witnesses and counterexamples -/

/-- A vectorizer whose `transform` always succeeds. -/
def okVectorizer : Vectorizer Nat := { transform := fun _ => .ok 0 }

/-- A classifier predicting the numeric label 1 with probabilities
(0.1, 0.9). -/
def okModel : Model Nat :=
  { predict := fun _ => .ok (.num 1),
    predict_proba := fun _ => .ok (0.1, 0.9) }

/-- Globals with both artifacts loaded. -/
def okGlobals : Globals Nat := { model := some okModel, vectorizer := some okVectorizer }

/-- A well-formed request body. -/
def sampleBody : Option PyVal := some (.pdict [("email_text", .pstr "win a prize")])

/-- The response `okGlobals` produces on `sampleBody`. -/
def sampleResult : SuccessBody :=
  { success := true, prediction := 1, label := "phishing email",
    confidence := { safe := 0.1, phishing := 0.9 }, risk_level := "HIGH",
    email_length := 11, processed := true }

/-- A classifier predicting the numeric label 2 (a non-binary target) with
probabilities (0.5, 0.5). -/
def multiModel : Model Nat :=
  { predict := fun _ => .ok (.num 2),
    predict_proba := fun _ => .ok (0.5, 0.5) }

/-- Globals whose classifier predicts the numeric label 2. -/
def multiGlobals : Globals Nat := { model := some multiModel, vectorizer := some okVectorizer }

/-- A classifier predicting the string label "Phishing Email" with
probabilities (0.05, 0.95). -/
def strLabelModel : Model Nat :=
  { predict := fun _ => .ok (.strl "Phishing Email"),
    predict_proba := fun _ => .ok (0.05, 0.95) }

/-- Globals whose classifier predicts the string label "Phishing Email". -/
def strLabelGlobals : Globals Nat :=
  { model := some strLabelModel, vectorizer := some okVectorizer }

/-- A request body whose text has surrounding whitespace. -/
def paddedBody : Option PyVal := some (.pdict [("email_text", .pstr "  hi  ")])

/-- The empty globals before any successful load. -/
def emptyGlobals : Globals Nat := { model := none, vectorizer := none }

/-! ### The success-path inversion lemma -/

lemma predict_ok_of_predictBody {Feat : Type} {g : Globals Feat} {body : Option PyVal}
    {r : SuccessBody} (h : predict g body = .ok r) :
    predictBody g body = .ok (.ok r) := by
  unfold predict at h
  cases hb : predictBody g body with
  | ok r0 =>
    rw [hb] at h
    have h0 : r0 = Resp.ok r := h
    rw [h0]
  | error e => rw [hb] at h; exact absurd h (by simp)

/-- Inversion of the success path of `/predict`: a 200 response can only
arise from a dict body whose `email_text` value is a truthy string that is
nonempty after stripping, with `predict_phishing` succeeding, and the
response fields are exactly the ones the handler assembles. -/
lemma predict_ok_inv {Feat : Type} (g : Globals Feat) (body : Option PyVal)
    (r : SuccessBody) (h : predict g body = .ok r) :
    ∃ kvs s prediction confidence,
      body = some (.pdict kvs) ∧
      dictGet kvs "email_text" (.pstr "") = .pstr s ∧
      truthy (.pstr s) = true ∧
      (pyLen (pyStrip s) == 0) = false ∧
      predict_phishing g s = (some prediction, some confidence, none) ∧
      r = { success := true,
            prediction := prediction,
            label := if prediction == 1 then "phishing email" else "safe email",
            confidence := confidence,
            risk_level :=
              if confidence.phishing > 0.7 then "HIGH"
              else if confidence.phishing > 0.4 then "MEDIUM"
              else "LOW",
            email_length := pyLen s,
            processed := true } := by
  have hpb := predict_ok_of_predictBody h
  unfold predictBody at hpb
  split at hpb
  · simp at hpb
  · cases body with
    | none => simp at hpb
    | some data =>
      simp only at hpb
      split at hpb
      · simp at hpb
      · cases data with
        | pstr s => simp [pyGetAttr] at hpb
        | pint n => simp [pyGetAttr] at hpb
        | pbool b => simp [pyGetAttr] at hpb
        | pnone => simp [pyGetAttr] at hpb
        | plist xs => simp [pyGetAttr] at hpb
        | pdict kvs =>
          simp only [pyGetAttr] at hpb
          split at hpb
          · simp at hpb
          · rename_i htruthy
            cases het : dictGet kvs "email_text" (.pstr "") with
            | pint n => rw [het] at hpb htruthy; simp at hpb
            | pbool b => rw [het] at hpb htruthy; simp at hpb
            | pnone => rw [het] at hpb htruthy; simp at hpb
            | plist xs => rw [het] at hpb htruthy; simp at hpb
            | pdict kvs2 => rw [het] at hpb htruthy; simp at hpb
            | pstr s =>
              rw [het] at hpb htruthy
              simp only at hpb
              split at hpb
              · simp at hpb
              · rename_i hstrip
                cases hpp : predict_phishing g s with
                | mk p rest =>
                  cases rest with
                  | mk c e =>
                    rw [hpp] at hpb
                    cases e with
                    | some err => simp at hpb
                    | none =>
                      cases p with
                      | none => cases c <;> simp at hpb
                      | some prediction =>
                        cases c with
                        | none => simp at hpb
                        | some confidence =>
                          simp only [Except.ok.injEq, Resp.ok.injEq] at hpb
                          refine ⟨kvs, s, prediction, confidence, rfl, het, ?_, ?_, hpp, hpb.symm⟩
                          · simpa using htruthy
                          · simpa using hstrip

/-! ### Concrete evaluation lemmas -/

/-- Concrete run: the sample request against `okGlobals`. -/
lemma sample_eval : predict okGlobals sampleBody = .ok sampleResult := by
  have h1 : pyGetAttr (.pdict [("email_text", .pstr "win a prize")]) "email_text" (.pstr "")
      = .ok (.pstr "win a prize") := rfl
  have h2 : truthy (.pdict [("email_text", .pstr "win a prize")]) = true := by decide
  have h3 : truthy (.pstr "win a prize") = true := by decide
  have h4 : (pyLen (pyStrip "win a prize") == 0) = false := by decide
  have h5 : pyLen "win a prize" = 11 := by decide
  norm_num [predict, predictBody, predict_phishing, okGlobals, okModel, okVectorizer,
    sampleBody, sampleResult, pyInt, h1, h2, h3, h4, h5]

/-- The response `okGlobals` produces on the padded body: note
`email_length` is the raw, untrimmed length 6. -/
def paddedResult : SuccessBody :=
  { success := true, prediction := 1, label := "phishing email",
    confidence := { safe := 0.1, phishing := 0.9 }, risk_level := "HIGH",
    email_length := 6, processed := true }

/-- Concrete run: the padded request against `okGlobals`. -/
lemma padded_eval : predict okGlobals paddedBody = .ok paddedResult := by
  have h1 : pyGetAttr (.pdict [("email_text", .pstr "  hi  ")]) "email_text" (.pstr "")
      = .ok (.pstr "  hi  ") := rfl
  have h2 : truthy (.pdict [("email_text", .pstr "  hi  ")]) = true := by decide
  have h3 : truthy (.pstr "  hi  ") = true := by decide
  have h4 : (pyLen (pyStrip "  hi  ") == 0) = false := by decide
  have h5 : pyLen "  hi  " = 6 := by decide
  norm_num [predict, predictBody, predict_phishing, okGlobals, okModel, okVectorizer,
    paddedBody, paddedResult, pyInt, h1, h2, h3, h4, h5]

/-- The response `multiGlobals` produces on the sample body: a success
with the non-binary prediction 2. -/
def multiResult : SuccessBody :=
  { success := true, prediction := 2, label := "safe email",
    confidence := { safe := 0.5, phishing := 0.5 }, risk_level := "MEDIUM",
    email_length := 11, processed := true }

/-- Concrete run: the sample request against `multiGlobals`. -/
lemma multi_eval : predict multiGlobals sampleBody = .ok multiResult := by
  have h1 : pyGetAttr (.pdict [("email_text", .pstr "win a prize")]) "email_text" (.pstr "")
      = .ok (.pstr "win a prize") := rfl
  have h2 : truthy (.pdict [("email_text", .pstr "win a prize")]) = true := by decide
  have h3 : truthy (.pstr "win a prize") = true := by decide
  have h4 : (pyLen (pyStrip "win a prize") == 0) = false := by decide
  have h5 : pyLen "win a prize" = 11 := by decide
  norm_num [predict, predictBody, predict_phishing, multiGlobals, multiModel, okVectorizer,
    sampleBody, multiResult, pyInt, h1, h2, h3, h4, h5]

/-- Concrete run: the sample request against `strLabelGlobals` ends in the
500 prediction-failed error, because `int("Phishing Email")` raises. -/
lemma strLabel_eval :
    predict strLabelGlobals sampleBody =
      .err 500 "Prediction failed: invalid literal for int() with base 10: Phishing Email" := by
  have h1 : pyGetAttr (.pdict [("email_text", .pstr "win a prize")]) "email_text" (.pstr "")
      = .ok (.pstr "win a prize") := rfl
  have h2 : truthy (.pdict [("email_text", .pstr "win a prize")]) = true := by decide
  have h3 : truthy (.pstr "win a prize") = true := by decide
  have h4 : (pyLen (pyStrip "win a prize") == 0) = false := by decide
  have h6 : pyInt (.strl "Phishing Email") =
      .error "invalid literal for int() with base 10: Phishing Email" := rfl
  have h7 : "Prediction failed: " ++ "invalid literal for int() with base 10: Phishing Email"
      = "Prediction failed: invalid literal for int() with base 10: Phishing Email" := rfl
  norm_num [predict, predictBody, predict_phishing, strLabelGlobals, strLabelModel,
    okVectorizer, sampleBody, h1, h2, h3, h4, h6, h7]

/-! ### Claim C2: email_length vs. trimmed length -/

/-- C2 (counterexample): for the input "  hi  " (6 characters, 2 after
trimming) the success response's `email_length` is 6, the raw length, not
the trimmed length 2 claimed by the spec. -/
theorem C2_counterexample :
    predict okGlobals paddedBody = .ok paddedResult ∧
    paddedResult.email_length = 6 ∧
    pyLen (pyStrip "  hi  ") = 2 := by
  refine ⟨padded_eval, rfl, by decide⟩

/-- C2 (amended): for every request accepted by `/predict`, the
`details.email_length` field of the success response equals the character
length of the raw input text, before any trimming. -/
theorem C2_amended {Feat : Type} (g : Globals Feat) (body : Option PyVal)
    (r : SuccessBody) (h : predict g body = .ok r) :
    ∃ kvs s, body = some (.pdict kvs) ∧
      dictGet kvs "email_text" (.pstr "") = .pstr s ∧
      r.email_length = pyLen s := by
  obtain ⟨kvs, s, p, c, hbody, het, _, _, _, hr⟩ := predict_ok_inv g body r h
  exact ⟨kvs, s, hbody, het, by rw [hr]⟩

/-- C2 (witness): the amended statement at the concrete sample input. -/
theorem C2_witness :
    ∃ kvs s, sampleBody = some (.pdict kvs) ∧
      dictGet kvs "email_text" (.pstr "") = .pstr s ∧
      sampleResult.email_length = pyLen s :=
  C2_amended okGlobals sampleBody sampleResult sample_eval

/-! ### Claim C6: risk_level thresholds -/

/-- C6: for every success result of `/predict`, `risk_level` is "HIGH" iff
`confidence.phishing > 0.7`, "MEDIUM" iff `0.4 < confidence.phishing ≤
0.7`, and "LOW" iff `confidence.phishing ≤ 0.4` (strict `>` at both
boundaries). -/
theorem C6_risk_level {Feat : Type} (g : Globals Feat) (body : Option PyVal)
    (r : SuccessBody) (h : predict g body = .ok r) :
    (r.risk_level = "HIGH" ↔ r.confidence.phishing > 0.7) ∧
    (r.risk_level = "MEDIUM" ↔
      (0.4 < r.confidence.phishing ∧ r.confidence.phishing ≤ 0.7)) ∧
    (r.risk_level = "LOW" ↔ r.confidence.phishing ≤ 0.4) := by
  obtain ⟨kvs, s, p, c, _, _, _, _, _, hr⟩ := predict_ok_inv g body r h
  subst hr
  dsimp only
  rcases le_or_lt c.phishing (0.4 : ℚ) with h4 | h4
  · rw [if_neg (by linarith : ¬ c.phishing > (0.7 : ℚ)),
      if_neg (by linarith : ¬ c.phishing > (0.4 : ℚ))]
    exact ⟨⟨fun hh => absurd hh (by decide), fun hh => by linarith⟩,
      ⟨fun hh => absurd hh (by decide), fun hh => by rcases hh with ⟨a, _⟩; linarith⟩,
      ⟨fun _ => h4, fun _ => rfl⟩⟩
  · rcases le_or_lt c.phishing (0.7 : ℚ) with h7 | h7
    · rw [if_neg (by linarith : ¬ c.phishing > (0.7 : ℚ)),
        if_pos (by linarith : c.phishing > (0.4 : ℚ))]
      exact ⟨⟨fun hh => absurd hh (by decide), fun hh => by linarith⟩,
        ⟨fun _ => ⟨h4, h7⟩, fun _ => rfl⟩,
        ⟨fun hh => absurd hh (by decide), fun hh => by linarith⟩⟩
    · rw [if_pos (by linarith : c.phishing > (0.7 : ℚ))]
      exact ⟨⟨fun _ => h7, fun _ => rfl⟩,
        ⟨fun hh => absurd hh (by decide), fun hh => by rcases hh with ⟨_, b⟩; linarith⟩,
        ⟨fun hh => absurd hh (by decide), fun hh => by linarith⟩⟩

/-- C6 (witness): the thresholds at the concrete sample run, whose
phishing confidence 0.9 yields "HIGH". -/
theorem C6_witness :
    (sampleResult.risk_level = "HIGH" ↔ sampleResult.confidence.phishing > 0.7) ∧
    (sampleResult.risk_level = "MEDIUM" ↔
      (0.4 < sampleResult.confidence.phishing ∧ sampleResult.confidence.phishing ≤ 0.7)) ∧
    (sampleResult.risk_level = "LOW" ↔ sampleResult.confidence.phishing ≤ 0.4) :=
  C6_risk_level okGlobals sampleBody sampleResult sample_eval

/-! ### Claim C7: label vs. prediction -/

/-- C7 (counterexample): a classifier emitting the numeric label 2
produces a success response whose prediction is 2 — outside {0, 1} — with
label "safe email", so "label = safe email iff prediction = 0" fails. -/
theorem C7_counterexample :
    predict multiGlobals sampleBody = .ok multiResult ∧
    multiResult.label = "safe email" ∧
    multiResult.prediction ≠ 0 ∧ multiResult.prediction ≠ 1 :=
  ⟨multi_eval, rfl, by decide, by decide⟩

/-- C7 (amended): for every success result of `/predict`, the label is
"phishing email" iff the prediction is 1, and "safe email" iff the
prediction is anything other than 1; the code never checks that the
prediction lies in {0, 1}. -/
theorem C7_amended {Feat : Type} (g : Globals Feat) (body : Option PyVal)
    (r : SuccessBody) (h : predict g body = .ok r) :
    (r.label = "phishing email" ↔ r.prediction = 1) ∧
    (r.label = "safe email" ↔ r.prediction ≠ 1) := by
  obtain ⟨kvs, s, p, c, _, _, _, _, _, hr⟩ := predict_ok_inv g body r h
  subst hr
  dsimp only
  by_cases hp : p = 1
  · subst hp
    simp
  · rw [if_neg (by simpa using hp)]
    exact ⟨⟨fun hh => absurd hh (by decide), fun hh => absurd hh hp⟩,
      ⟨fun _ => hp, fun _ => rfl⟩⟩

/-- C7 (witness): the amended statement at the concrete sample run. -/
theorem C7_witness :
    (sampleResult.label = "phishing email" ↔ sampleResult.prediction = 1) ∧
    (sampleResult.label = "safe email" ↔ sampleResult.prediction ≠ 1) :=
  C7_amended okGlobals sampleBody sampleResult sample_eval

/-! ### Claim C9: determinism of the predict operation -/

/-- C9: the predict operation is deterministic — in this embedding the
extractor and classifier are pure functions held in the bundle, so two
identical requests against the same unchanged bundle yield identical
responses in every field. -/
theorem C9_deterministic {Feat : Type} (g : Globals Feat)
    (body1 body2 : Option PyVal) (h : body1 = body2) :
    predict g body1 = predict g body2 := by
  rw [h]

/-- C9 (witness): determinism at the concrete sample input. -/
theorem C9_witness : predict okGlobals sampleBody = predict okGlobals sampleBody :=
  C9_deterministic okGlobals sampleBody sampleBody rfl

/-! ### Claim C1: behavior when loading fails at process start -/

/-- C1 (counterexample): with the model artifact missing, the `__main__`
block exits without serving any endpoint (the loader returns `False` and
`app.run` is never reached); and with a corrupt artifact (an exception
other than `FileNotFoundError`) the loader does not return a failure
indication — the exception propagates. -/
theorem C1_counterexample :
    (mainBlock (.error (.fileNotFound "phishing_model.pkl")) (.ok okVectorizer)).2 =
      .exitsWithoutServing ∧
    (load_model_and_vectorizer emptyGlobals (.error (.other "corrupt artifact"))
      (.ok okVectorizer)).2 = .error (.other "corrupt artifact") :=
  ⟨rfl, rfl⟩

/-- C1 (amended): a missing artifact file makes the loader return `False`
without raising, after which the `__main__` block exits without serving;
any other loading exception (a corrupt artifact) propagates out of the
loader and crashes the process.  The service never starts after a failed
load. -/
theorem C1_amended {Feat : Type} (g : Globals Feat) (msg : String)
    (lv : Except Exc (Vectorizer Feat)) :
    ((load_model_and_vectorizer g (.error (.fileNotFound msg)) lv).2 = .ok false ∧
      (mainBlock (.error (.fileNotFound msg)) lv).2 = .exitsWithoutServing) ∧
    ((load_model_and_vectorizer g (.error (.other msg)) lv).2 = .error (.other msg) ∧
      (mainBlock (.error (.other msg)) lv).2 = .crashed (.other msg)) ∧
    (∀ m : Model Feat,
      (load_model_and_vectorizer g (.ok m) (.error (.fileNotFound msg))).2 = .ok false ∧
      (mainBlock (.ok m) (.error (.fileNotFound msg))).2 = .exitsWithoutServing ∧
      (load_model_and_vectorizer g (.ok m) (.error (.other msg))).2 = .error (.other msg) ∧
      (mainBlock (.ok m) (.error (.other msg))).2 = .crashed (.other msg)) :=
  ⟨⟨rfl, rfl⟩, ⟨rfl, rfl⟩, fun _ => ⟨rfl, rfl, rfl, rfl⟩⟩

/-! ### Claim C5: atomicity of loading -/

/-- C5 (counterexample): when the model artifact loads and the vectorizer
file is missing, the failed load leaves the `model` global set and only
the `vectorizer` global unset — loading is not atomic. -/
theorem C5_counterexample :
    (load_model_and_vectorizer emptyGlobals (.ok okModel)
      (.error (.fileNotFound "tfidf_vectorizer.pkl"))).1.model = some okModel ∧
    (load_model_and_vectorizer emptyGlobals (.ok okModel)
      (.error (.fileNotFound "tfidf_vectorizer.pkl"))).1.vectorizer = none ∧
    (load_model_and_vectorizer emptyGlobals (.ok okModel)
      (.error (.fileNotFound "tfidf_vectorizer.pkl"))).2 = .ok false :=
  ⟨rfl, rfl, rfl⟩

/-- C5 (amended): a failed load leaves each global exactly as it was at
the moment of failure: failure on the first artifact leaves the globals
unchanged, while failure on the second leaves the freshly assigned
`model` set and the `vectorizer` untouched. -/
theorem C5_amended {Feat : Type} (g : Globals Feat) (msg : String)
    (lv : Except Exc (Vectorizer Feat)) (m : Model Feat) :
    load_model_and_vectorizer g (.error (.fileNotFound msg)) lv = (g, .ok false) ∧
    load_model_and_vectorizer g (.ok m) (.error (.fileNotFound msg)) =
      ({ g with model := some m }, .ok false) :=
  ⟨rfl, rfl⟩

/-! ### Claim C10: the /health invariant -/

/-- C10: for every state of the globals, `/health` reports `model_loaded`
true iff both `vectorizer_loaded` and `classifier_loaded` are true, and
`status` is "healthy" iff `model_loaded`; a partially loaded bundle (the
two flags differing) therefore reports "unhealthy". -/
theorem C10_health_invariant {Feat : Type} (g : Globals Feat) :
    ((health g).model_loaded = ((health g).vectorizer_loaded && (health g).classifier_loaded)) ∧
    ((health g).status = "healthy" ↔ (health g).model_loaded = true) ∧
    ((health g).status = "unhealthy" ↔ (health g).model_loaded = false) ∧
    ((health g).vectorizer_loaded ≠ (health g).classifier_loaded →
      (health g).status = "unhealthy" ∧ (health g).model_loaded = false) := by
  cases g with
  | mk mo vo => cases mo <;> cases vo <;> simp [health]

/-! ### Claim C8: no exception escapes the /predict handler -/

/-- Every result of the handler's `try:` body is a success body with
`success = true`, a 400 error, a 500 error, or an uncaught exception. -/
lemma predictBody_shape {Feat : Type} (g : Globals Feat) (body : Option PyVal) :
    (∃ b, predictBody g body = .ok (.ok b) ∧ b.success = true) ∨
    (∃ msg, predictBody g body = .ok (.err 400 msg)) ∨
    (∃ msg, predictBody g body = .ok (.err 500 msg)) ∨
    (∃ e, predictBody g body = .error e) := by
  unfold predictBody
  split
  · right; right; left; exact ⟨_, rfl⟩
  · cases body with
    | none => right; left; exact ⟨_, rfl⟩
    | some data =>
      dsimp only
      split
      · right; left; exact ⟨_, rfl⟩
      · cases data with
        | pstr s => right; right; right; exact ⟨_, rfl⟩
        | pint n => right; right; right; exact ⟨_, rfl⟩
        | pbool b => right; right; right; exact ⟨_, rfl⟩
        | pnone => right; right; right; exact ⟨_, rfl⟩
        | plist xs => right; right; right; exact ⟨_, rfl⟩
        | pdict kvs =>
          simp only [pyGetAttr]
          split
          · right; left; exact ⟨_, rfl⟩
          · cases dictGet kvs "email_text" (.pstr "") with
            | pint n => right; left; exact ⟨_, rfl⟩
            | pbool b => right; left; exact ⟨_, rfl⟩
            | pnone => right; left; exact ⟨_, rfl⟩
            | plist xs => right; left; exact ⟨_, rfl⟩
            | pdict kvs2 => right; left; exact ⟨_, rfl⟩
            | pstr s =>
              dsimp only
              split
              · right; left; exact ⟨_, rfl⟩
              · cases hpp : predict_phishing g s with
                | mk p rest =>
                  cases rest with
                  | mk c e =>
                    cases e with
                    | some err =>
                      cases p <;> cases c <;> (right; right; left; exact ⟨_, rfl⟩)
                    | none =>
                      cases p with
                      | none =>
                        cases c with
                        | none => right; right; right; exact ⟨_, rfl⟩
                        | some cc => right; right; right; exact ⟨_, rfl⟩
                      | some pp =>
                        cases c with
                        | none => right; right; right; exact ⟨_, rfl⟩
                        | some cc => left; exact ⟨_, rfl, rfl⟩

/-- C8: no exception escapes the `/predict` handler — every response is a
well-formed success body or an `{error: ...}` object with status 400 or
500, and any exception reaching the handler's catch-all (including
failures inside feature extraction or classification) becomes the 500
"Server error" response. -/
theorem C8_no_escape {Feat : Type} (g : Globals Feat) (body : Option PyVal) :
    ((∃ r, predict g body = .ok r ∧ r.success = true) ∨
      (∃ msg, predict g body = .err 400 msg) ∨
      (∃ msg, predict g body = .err 500 msg)) ∧
    (∀ e, predictBody g body = .error e →
      predict g body = .err 500 ("Server error: " ++ e)) := by
  refine ⟨?_, fun e he => by unfold predict; rw [he]⟩
  rcases predictBody_shape g body with ⟨b, hb, hs⟩ | ⟨msg, hb⟩ | ⟨msg, hb⟩ | ⟨e, hb⟩
  · exact Or.inl ⟨b, by unfold predict; rw [hb], hs⟩
  · exact Or.inr (Or.inl ⟨msg, by unfold predict; rw [hb]⟩)
  · exact Or.inr (Or.inr ⟨msg, by unfold predict; rw [hb]⟩)
  · exact Or.inr (Or.inr ⟨_, by unfold predict; rw [hb]⟩)

/-! ### Claim C3: validation order and the per-failure errors -/

/-- C3 (counterexample): the body `{"email_text": ""}` does not get the
empty-text error and the body `{"email_text": 0}` does not get the
must-be-a-string error — both values are falsy in Python, so
`if not email_text` fires first and both get the missing-field error. -/
theorem C3_counterexample :
    predict okGlobals (some (.pdict [("email_text", .pstr "")])) = .err 400 missingFieldMsg ∧
    predict okGlobals (some (.pdict [("email_text", .pint 0)])) = .err 400 missingFieldMsg ∧
    missingFieldMsg ≠ emptyTextMsg ∧ missingFieldMsg ≠ notStringMsg :=
  ⟨rfl, rfl, by decide, by decide⟩

/-- C3 (amended): with the bundle loaded and a nonempty dict body, the
checks short-circuit in source order, keyed on Python truthiness: a falsy
`email_text` value (absent, the empty string, zero, `False`, `None`, or an
empty container) gets the missing-field error; a truthy non-string gets
the must-be-a-string error; a truthy string that strips to empty gets the
empty-text error. -/
theorem C3_amended {Feat : Type} (g : Globals Feat) (m : Model Feat) (v : Vectorizer Feat)
    (hm : g.model = some m) (hv : g.vectorizer = some v)
    (kvs : List (String × PyVal)) (hkvs : kvs.isEmpty = false) :
    (truthy (dictGet kvs "email_text" (.pstr "")) = false →
      predict g (some (.pdict kvs)) = .err 400 missingFieldMsg) ∧
    (truthy (dictGet kvs "email_text" (.pstr "")) = true →
      isStr (dictGet kvs "email_text" (.pstr "")) = false →
      predict g (some (.pdict kvs)) = .err 400 notStringMsg) ∧
    (∀ s, dictGet kvs "email_text" (.pstr "") = .pstr s → truthy (.pstr s) = true →
      pyLen (pyStrip s) = 0 →
      predict g (some (.pdict kvs)) = .err 400 emptyTextMsg) := by
  have hload : (g.model.isNone || g.vectorizer.isNone) = false := by rw [hm, hv]; rfl
  have hdict : truthy (.pdict kvs) = true := by simp [truthy, hkvs]
  refine ⟨fun hfalsy => ?_, fun htr hnstr => ?_, fun s hets htr hstrip => ?_⟩
  · simp [predict, predictBody, hload, hdict, pyGetAttr, hfalsy]
  · cases het : dictGet kvs "email_text" (.pstr "") with
    | pstr s => rw [het] at hnstr; exact absurd hnstr (by simp [isStr])
    | pint n =>
      rw [het] at htr
      simp [predict, predictBody, hload, hdict, pyGetAttr, het, htr]
    | pbool b =>
      rw [het] at htr
      simp [predict, predictBody, hload, hdict, pyGetAttr, het, htr]
    | pnone =>
      rw [het] at htr
      simp [predict, predictBody, hload, hdict, pyGetAttr, het, htr]
    | plist xs =>
      rw [het] at htr
      simp [predict, predictBody, hload, hdict, pyGetAttr, het, htr]
    | pdict kvs2 =>
      rw [het] at htr
      simp [predict, predictBody, hload, hdict, pyGetAttr, het, htr]
  · simp [predict, predictBody, hload, hdict, pyGetAttr, hets, htr, hstrip]

/-- C3 (witness): the amended statement instantiated at the loaded
`okGlobals` and the concrete body carrying the empty string. -/
theorem C3_witness :
    (truthy (dictGet [("email_text", PyVal.pstr "")] "email_text" (.pstr "")) = false →
      predict okGlobals (some (.pdict [("email_text", PyVal.pstr "")])) =
        .err 400 missingFieldMsg) ∧
    (truthy (dictGet [("email_text", PyVal.pstr "")] "email_text" (.pstr "")) = true →
      isStr (dictGet [("email_text", PyVal.pstr "")] "email_text" (.pstr "")) = false →
      predict okGlobals (some (.pdict [("email_text", PyVal.pstr "")])) =
        .err 400 notStringMsg) ∧
    (∀ s, dictGet [("email_text", PyVal.pstr "")] "email_text" (.pstr "") = .pstr s →
      truthy (.pstr s) = true → pyLen (pyStrip s) = 0 →
      predict okGlobals (some (.pdict [("email_text", PyVal.pstr "")])) =
        .err 400 emptyTextMsg) :=
  C3_amended okGlobals okModel okVectorizer rfl rfl [("email_text", PyVal.pstr "")] rfl

/-! ### Claim C4: normalization of the predicted class -/

/-- C4 (counterexample): the string label "Phishing Email" contains
"phish" case-insensitively, so the claim says it maps to prediction 1 and
the predict path succeeds; the code instead feeds it to `int()`, which
raises, and `/predict` returns the 500 prediction-failed error. -/
theorem C4_counterexample :
    phishSubstring "Phishing Email" = true ∧
    predict strLabelGlobals sampleBody =
      .err 500 "Prediction failed: invalid literal for int() with base 10: Phishing Email" :=
  ⟨by decide, strLabel_eval⟩

/-- C4 (amended): after the classify call, the predicted class goes
through Python `int()`: a numeric label is used directly as the
prediction (with no clamping to {0, 1}), while a string label succeeds
only if it parses as an integer literal — a non-numeric string label (in
particular one containing "phish") makes `predict_phishing` return the
error that `/predict` surfaces as the 500 prediction-failed response.
There is no substring-based mapping of string labels. -/
theorem C4_amended {Feat : Type} (g : Globals Feat) (m : Model Feat) (v : Vectorizer Feat)
    (s : String) (feat : Feat) (probs : ℚ × ℚ)
    (hm : g.model = some m) (hv : g.vectorizer = some v)
    (ht : v.transform s = .ok feat) (hp : m.predict_proba feat = .ok probs) :
    (∀ n, m.predict feat = .ok (.num n) →
      predict_phishing g s = (some n, some { safe := probs.1, phishing := probs.2 }, none)) ∧
    (∀ lab e, m.predict feat = .ok (.strl lab) → pyIntOfString lab = .error e →
      predict_phishing g s = (none, none, some e)) := by
  constructor
  · intro n hpred
    simp [predict_phishing, hm, hv, ht, hpred, hp, pyInt]
  · intro lab e hpred hint
    simp [predict_phishing, hm, hv, ht, hpred, hp, pyInt, hint]

/-- C4 (witness): the numeric branch of the amended statement at the
concrete `okGlobals`, whose classifier yields the numeric label 1. -/
theorem C4_witness :
    predict_phishing okGlobals "win a prize" =
      (some 1, some { safe := 0.1, phishing := 0.9 }, none) :=
  (C4_amended okGlobals okModel okVectorizer "win a prize" 0 (0.1, 0.9)
    rfl rfl rfl rfl).1 1 rfl

end PhishingAPI
